import Mathlib

/-
Verification of the chatkit-client-js state-synchronization core against its
natural-language specification.  The JavaScript sources embedded here are
src/parsers.js, src/cursor-store.js and src/current-user.js; collaborators
that the repository snapshot does not include (store.js, utils.js, cursor.js,
user-store.js) are modelled from the specification and marked as such in
their doc comments.
-/

namespace Chatkit

/-- Dynamic JavaScript values, restricted to the shapes the claims need.
`undef` is JavaScript `undefined`; an absent object property reads as
`undef`. -/
inductive JsValue where
  | undef
  | obj
  | str (s : String)
  | num (n : Int)
  | boolean (b : Bool)
deriving DecidableEq, Repr

/-- The JavaScript `typeof` operator on the modelled values. -/
def JsValue.typeOf : JsValue → String
  | .undef => "undefined"
  | .obj => "object"
  | .str _ => "string"
  | .num _ => "number"
  | .boolean _ => "boolean"

/-- Raw presence payload as received from the wire (snake_case keys),
from src/parsers.js `parsePresence`'s reads of `data`. -/
structure PresencePayload where
  last_seen_at : JsValue
  state : JsValue
  user_id : JsValue
deriving DecidableEq

/-- Parsed presence record (camelCase fields), from src/parsers.js. -/
structure PresenceRec where
  lastSeenAt : JsValue
  state : JsValue
  userId : JsValue
deriving DecidableEq

/-- Embedding of src/parsers.js `parsePresence` (lines 23-27):
`state: contains(data.state, ['online', 'offline']) ? data.state : 'unknown'`.
Ramda `contains` is membership by strict equality. -/
def parsePresence (d : PresencePayload) : PresenceRec :=
  { lastSeenAt := d.last_seen_at
    state :=
      if d.state = .str "online" ∨ d.state = .str "offline" then d.state
      else .str "unknown"
    userId := d.user_id }

/-- Raw room payload.  The JavaScript object may carry both the snake_case
key `deleted_at` and the camelCase key `deletedAt`; a key the server did not
send reads as `undef`. Fields are the ones src/parsers.js `parseBasicRoom`
reads, plus `deleted_at`, which a uniformly snake_case payload carries but
the parser never reads. -/
structure RoomPayload where
  created_at : JsValue
  created_by_id : JsValue
  deletedAt : JsValue
  deleted_at : JsValue
  id : JsValue
  «private» : JsValue
  name : JsValue
  updated_at : JsValue
  member_user_ids : JsValue
deriving DecidableEq

/-- Parsed basic room record, from src/parsers.js. -/
structure BasicRoom where
  createdAt : JsValue
  createdByUserId : JsValue
  deletedAt : JsValue
  id : JsValue
  isPrivate : JsValue
  name : JsValue
  updatedAt : JsValue
  userIds : JsValue
deriving DecidableEq

/-- Embedding of src/parsers.js `parseBasicRoom` (lines 3-12).  Note the
source reads `data.created_at` and `data.updated_at` (snake_case) but
`data.deletedAt` (camelCase). -/
def parseBasicRoom (d : RoomPayload) : BasicRoom :=
  { createdAt := d.created_at
    createdByUserId := d.created_by_id
    deletedAt := d.deletedAt
    id := d.id
    isPrivate := d.«private»
    name := d.name
    updatedAt := d.updated_at
    userIds := d.member_user_ids }

/-- C9: for every input payload, `parsePresence` returns a record whose
`state` equals the payload's `state` when that is exactly the string
"online" or "offline", equals "unknown" for every other value, and is always
one of the three. -/
theorem parsePresence_state_cases (d : PresencePayload) :
    ((d.state = .str "online" ∨ d.state = .str "offline") →
      (parsePresence d).state = d.state) ∧
    (¬(d.state = .str "online" ∨ d.state = .str "offline") →
      (parsePresence d).state = .str "unknown") ∧
    ((parsePresence d).state = .str "online" ∨
      (parsePresence d).state = .str "offline" ∨
      (parsePresence d).state = .str "unknown") := by
  refine ⟨fun h => ?_, fun h => ?_, ?_⟩
  · simp [parsePresence, h]
  · simp [parsePresence, h]
  · by_cases h : d.state = .str "online" ∨ d.state = .str "offline"
    · rcases h with h | h <;> simp [parsePresence, h]
    · simp [parsePresence, h]

/-- Witness for C9 at concrete payloads. -/
theorem parsePresence_state_cases_witness :
    (parsePresence ⟨.num 5, .str "online", .str "u"⟩).state = .str "online" ∧
    (parsePresence ⟨.num 5, .str "away", .str "u"⟩).state = .str "unknown" := by
  refine ⟨?_, ?_⟩
  · exact (parsePresence_state_cases ⟨.num 5, .str "online", .str "u"⟩).1
      (Or.inl rfl)
  · exact (parsePresence_state_cases ⟨.num 5, .str "away", .str "u"⟩).2.1
      (by decide)

/-- C10: `parseBasicRoom` reads `created_at` and `updated_at` from the
snake_case payload keys but reads the deleted timestamp from the camelCase
key `deletedAt`; hence a payload whose keys are uniformly snake_case
(camelCase `deletedAt` absent, i.e. `undef`, even with `deleted_at` set)
parses with `deletedAt = undef`. -/
theorem parseBasicRoom_deletedAt_camelCase (d : RoomPayload) :
    (parseBasicRoom d).createdAt = d.created_at ∧
    (parseBasicRoom d).updatedAt = d.updated_at ∧
    (parseBasicRoom d).deletedAt = d.deletedAt ∧
    (d.deletedAt = .undef → (parseBasicRoom d).deletedAt = .undef) := by
  refine ⟨rfl, rfl, rfl, fun h => h⟩

/-- Witness for C10: a uniformly snake_case payload with `deleted_at` set
parses with `deletedAt = undef`. -/
theorem parseBasicRoom_deletedAt_camelCase_witness :
    (parseBasicRoom
      { created_at := .str "2018-01-01"
        created_by_id := .str "alice"
        deletedAt := .undef
        deleted_at := .str "2018-02-02"
        id := .num 1
        «private» := .boolean false
        name := .str "general"
        updated_at := .str "2018-01-03"
        member_user_ids := .obj }).deletedAt = .undef := by
  exact (parseBasicRoom_deletedAt_camelCase
    { created_at := .str "2018-01-01"
      created_by_id := .str "alice"
      deletedAt := .undef
      deleted_at := .str "2018-02-02"
      id := .num 1
      «private» := .boolean false
      name := .str "general"
      updated_at := .str "2018-01-03"
      member_user_ids := .obj }).2.2.2 rfl

/-- Modelled from the spec: store.js is not under src/.  Spec §3/§4.1
`Store<K,V>`: an internal mapping plus a pending-initialization signal.
The mapping is total from keys to optional values (`none` = key absent). -/
structure Store (K V : Type) where
  map : K → Option V
  initialized : Bool

/-- Modelled from the spec: `set(key, value)` unconditionally overwrites. -/
def Store.set {K V : Type} [DecidableEq K] (s : Store K V) (k : K) (v : V) :
    Store K V :=
  { s with map := fun k2 => if k2 = k then some v else s.map k2 }

/-- Modelled from the spec: store.js `initialize(entries)` merges entries
whose key is not already present into the mapping and signals
"initialized"; it never overwrites a present key. -/
def Store.initializeMerge {K V : Type} (s : Store K V)
    (entries : K → Option V) : Store K V :=
  { map := fun k =>
      match s.map k with
      | some v => some v
      | none => entries k
    initialized := true }

/-- Modelled from the spec: `getSync(key)` returns the current value or
undefined without waiting. -/
def Store.getSync {K V : Type} (s : Store K V) (k : K) : Option V :=
  s.map k

/-- C5: for every store, once a key maps to a value (via `set` or
post-fetch population), a later `initializeMerge` with an entry for that
key leaves the value unchanged; `initializeMerge` only adds entries for
absent keys, in either order relative to `set`. -/
theorem store_merge_not_overwrite {K V : Type} [DecidableEq K]
    (s : Store K V) (e : K → Option V) (k : K) (v : V) :
    (s.map k = some v → ( Store.initializeMerge s e).map k = some v) ∧
    (s.map k = none → ( Store.initializeMerge s e).map k = e k) ∧
    ( Store.initializeMerge ( Store.set s k v) e).map k = some v ∧
    ( Store.set ( Store.initializeMerge s e) k v).map k = some v := by
  refine ⟨fun h => ?_, fun h => ?_, ?_, ?_⟩
  · simp [Store.initializeMerge, h]
  · simp [Store.initializeMerge, h]
  · simp [Store.initializeMerge, Store.set]
  · simp [Store.set]

/-- Witness for C5 at a concrete store: key 1 set to 10, then a merge
offering 99 for keys 1 and 2 keeps 10 at key 1 and fills 99 at key 2. -/
theorem store_merge_not_overwrite_witness :
    (( Store.initializeMerge
        ( Store.set (⟨fun _ => none, false⟩ : Store Nat Nat) 1 10)
        (fun _ => some 99)).map 1 = some 10) ∧
    ((⟨fun _ => none, false⟩ : Store Nat Nat).map 2 = none →
      ( Store.initializeMerge (⟨fun _ => none, false⟩ : Store Nat Nat)
        (fun _ => some 99)).map 2 = some 99) := by
  refine ⟨?_, ?_⟩
  · exact (store_merge_not_overwrite
      (⟨fun _ => none, false⟩ : Store Nat Nat) (fun _ => some 99) 1 10).2.2.1
  · exact fun h => (store_merge_not_overwrite
      (⟨fun _ => none, false⟩ : Store Nat Nat) (fun _ => some 99) 2 99).2.1 h

/-- Basic cursor record.  Modelled from the spec: `parseBasicCursor` is not
in the src/parsers.js snapshot; spec §3 gives a Cursor the composite key
(userId, roomId), a position, an updated timestamp and type 0. -/
structure BasicCursor where
  position : Int
  updatedAt : String
  userId : String
  roomId : Int
  type : Int
deriving DecidableEq

/-- Modelled from the spec: cursor.js is not under src/.  A decorated
Cursor binds the basic record plus live user/room store lookups (§4.3);
the lookups are capabilities, so the decorated value is determined by the
basic record. -/
structure Cursor where
  basicCursor : BasicCursor
deriving DecidableEq

/-- Embedding of src/cursor-store.js line 78:
`const key = (userId, roomId) => userId + "/" + roomId`. -/
def key (userId : String) (roomId : Int) : String :=
  userId ++ "/" ++ toString roomId

/-- State of a CursorStore run.  `store` is the underlying Store mapping
(`none` = key absent, `some none` = key present with value `undefined`);
`fetchCount` counts network fetches of the cursor endpoint
(`fetchBasicCursor` requests); `missingUserFetchCalls` records the ids
passed to `userStore.fetchMissingUsers` by `set`. -/
structure CursorStoreState where
  store : String → Option (Option Cursor)
  fetchCount : Nat
  missingUserFetchCalls : List String

/-- Embedding of src/cursor-store.js `decorate` (lines 71-75): a truthy
basic cursor is wrapped in a `Cursor`, a falsy one stays `undefined`. -/
def CursorStore.decorate : Option BasicCursor → Option Cursor :=
  fun bc => bc.map Cursor.mk

/-- Embedding of src/cursor-store.js `fetchBasicCursor` (lines 50-69): one
network request against the cursor endpoint whose parsed outcome is given
by the `server` oracle (a missing remote cursor parses to `undefined`).
Transport failure is outside these claims; the fetch is modelled as
resolving. -/
def CursorStore.fetchBasicCursor (server : String → Int → Option BasicCursor)
    (userId : String) (roomId : Int) (s : CursorStoreState) :
    Option BasicCursor × CursorStoreState :=
  (server userId roomId, { s with fetchCount := s.fetchCount + 1 })

/-- Embedding of src/cursor-store.js `set` (lines 27-32): stores the
decorated cursor under `key userId roomId` and triggers
`userStore.fetchMissingUsers([userId])`; its resolution value is the
`Promise.all` pair of both results. -/
def CursorStore.setOp (userId : String) (roomId : Int)
    (bc : Option BasicCursor) (s : CursorStoreState) : CursorStoreState :=
  { s with
    store := fun k2 =>
      if k2 = key userId roomId then some ( CursorStore.decorate bc)
      else s.store k2
    missingUserFetchCalls := s.missingUserFetchCalls ++ [userId] }

/-- Resolution value of `CursorStore.get`: either the truthy cached
decorated cursor, or the `Promise.all` array that `set` resolves with on
the fetch path. -/
inductive CursorGetValue where
  | cursorVal (c : Cursor)
  | allVal
deriving DecidableEq

/-- Embedding of src/cursor-store.js `get` (lines 34-44):
`store.get(key).then(cursor => cursor || fetchBasicCursor(...).then(cursor
=> set(...)))`.  The stored value read back through the underlying store is
`Option.join` of the mapping (an absent key and a stored `undefined` both
read as `undefined`); `undefined` is falsy, so both fall into the fetch
branch, and the fetch branch resolves with `set`'s `Promise.all` value. -/
def CursorStore.get (server : String → Int → Option BasicCursor)
    (userId : String) (roomId : Int) (s : CursorStoreState) :
    CursorGetValue × CursorStoreState :=
  match Option.join (s.store ( key userId roomId)) with
  | some c => (.cursorVal c, s)
  | none =>
    let fr := CursorStore.fetchBasicCursor server userId roomId s
    (.allVal, CursorStore.setOp userId roomId fr.1 fr.2)

/-- Server oracle with no cursor stored for anyone. -/
def noCursorServer : String → Int → Option BasicCursor := fun _ _ => none

/-- Cursor-store state before any activity. -/
def emptyCursorState : CursorStoreState :=
  { store := fun _ => none, fetchCount := 0, missingUserFetchCalls := [] }

/-- C1 (code bug): after a completed `get("alice", 7)` against a server
with no cursor, the key is present with value `undefined` (the "no cursor"
outcome was stored), yet a second `get("alice", 7)` performs another
network fetch, because `cursor || ...` cannot distinguish the cached
`undefined` from a miss. -/
theorem cursorStore_get_refetches_cached_no_cursor :
    (( CursorStore.get noCursorServer "alice" 7 emptyCursorState).2.store
        ( key "alice" 7) = some none) ∧
    ( CursorStore.get noCursorServer "alice" 7 emptyCursorState).2.fetchCount
        = 1 ∧
    ( CursorStore.get noCursorServer "alice" 7
        ( CursorStore.get noCursorServer "alice" 7 emptyCursorState).2
      ).2.fetchCount = 2 := by
  refine ⟨?_, rfl, rfl⟩
  rfl

/-- Sample basic cursor used in concrete runs. -/
def sampleBasicCursor : BasicCursor :=
  { position := 42, updatedAt := "2018-01-01", userId := "alice", roomId := 1
    type := 0 }

/-- Server oracle holding one cursor, for user "alice" in room 1. -/
def oneCursorServer : String → Int → Option BasicCursor :=
  fun u r => if u = "alice" ∧ r = 1 then some sampleBasicCursor else none

/-- C2 counterexample: on a miss, `get` fetches, decorates and stores the
cursor, but resolves with the `Promise.all` pair from `set`, not with the
decorated cursor it stored. -/
theorem cursorStore_get_miss_value_counterexample :
    (( CursorStore.get oneCursorServer "alice" 1 emptyCursorState).2.store
        ( key "alice" 1) = some (some ⟨sampleBasicCursor⟩)) ∧
    ( CursorStore.get oneCursorServer "alice" 1 emptyCursorState).1 ≠
      CursorGetValue.cursorVal ⟨sampleBasicCursor⟩ := by
  refine ⟨?_, ?_⟩
  · rfl
  · intro h
    exact CursorGetValue.noConfusion h

/-- C2 amended: when the stored lookup yields a decorated cursor, `get`
resolves with it and leaves the state unchanged; otherwise (key absent, or
key present with the stored "no cursor" `undefined`) it performs one fetch,
decorates and stores the result under the key, triggers the companion
missing-user fetch, and resolves with the `Promise.all` pair, not with the
decorated cursor. -/
theorem cursorStore_get_characterization
    (server : String → Int → Option BasicCursor) (userId : String)
    (roomId : Int) (s : CursorStoreState) :
    (∀ c, Option.join (s.store ( key userId roomId)) = some c →
      CursorStore.get server userId roomId s = (.cursorVal c, s)) ∧
    (Option.join (s.store ( key userId roomId)) = none →
      CursorStore.get server userId roomId s =
        (.allVal,
          { store := fun k2 =>
              if k2 = key userId roomId then
                some ( CursorStore.decorate (server userId roomId))
              else s.store k2
            fetchCount := s.fetchCount + 1
            missingUserFetchCalls :=
              s.missingUserFetchCalls ++ [userId] })) := by
  constructor
  · intro c h
    unfold CursorStore.get
    rw [h]
  · intro h
    unfold CursorStore.get
    rw [h]
    rfl

/-- Witness for C2's amended theorem at a concrete miss. -/
theorem cursorStore_get_characterization_witness :
    CursorStore.get noCursorServer "bob" 2 emptyCursorState =
      (.allVal,
        { store := fun k2 =>
            if k2 = key "bob" 2 then
              some ( CursorStore.decorate (noCursorServer "bob" 2))
            else emptyCursorState.store k2
          fetchCount := emptyCursorState.fetchCount + 1
          missingUserFetchCalls :=
            emptyCursorState.missingUserFetchCalls ++ ["bob"] }) := by
  exact (cursorStore_get_characterization noCursorServer "bob" 2
    emptyCursorState).2 rfl

/-- Inbound cursor event as seen by a Cursor Subscription's `newCursor`
hook (decorated cursor fields read by the filters). -/
structure CursorEvent where
  type : Int
  userId : String
  roomId : Int
deriving DecidableEq

/-- Embedding of src/current-user.js `isMemberOf` (line 399):
`contains(roomId, map(prop('id'), this.rooms))`, over the ids of the
locally cached rooms. -/
def isMemberOf (cachedRoomIds : List Int) (roomId : Int) : Bool :=
  cachedRoomIds.contains roomId

/-- Embedding of the room-scoped `newCursor` filter built by
src/current-user.js `subscribeToRoom` (lines 312-322): the caller's
`onNewReadCursor` runs iff the hook is supplied, `cursor.type === 0`, and
`cursor.userId !== this.id`. -/
def roomScopedNewCursorInvokes (localId : String) (hasHook : Bool)
    (c : CursorEvent) : Bool :=
  hasHook && c.type == 0 && c.userId != localId

/-- Number of `onNewReadCursor` invocations the room-scoped filter performs
for one inbound event (the closure body calls the hook once when the
condition holds). -/
def roomScopedHookCalls (localId : String) (hasHook : Bool)
    (c : CursorEvent) : Nat :=
  if roomScopedNewCursorInvokes localId hasHook c then 1 else 0

/-- Embedding of the user-scoped `newCursor` filter built by
src/current-user.js `establishCursorSubscription` (lines 450-461): the
caller's `onNewReadCursor` runs iff the hook is supplied,
`cursor.type === 0`, and `this.isMemberOf(cursor.roomId)`.  Note: no
comparison against the local user id. -/
def userScopedNewCursorInvokes (hasHook : Bool) (cachedRoomIds : List Int)
    (c : CursorEvent) : Bool :=
  hasHook && c.type == 0 && isMemberOf cachedRoomIds c.roomId

/-- C3 counterexample: the user-scoped filter is not the room-scoped one.
A read-cursor event carrying the local user's own id, for a room the local
user is a member of, does invoke the hook, so "the hook is invoked only for
events whose userId is not the local user's id" fails. -/
theorem establishCursorSubscription_self_echo_counterexample :
    ¬ (∀ (localId : String) (cachedRoomIds : List Int) (c : CursorEvent),
        userScopedNewCursorInvokes true cachedRoomIds c = true →
          c.type = 0 ∧ c.userId ≠ localId) := by
  intro h
  exact (h "me" [1] ⟨0, "me", 1⟩ (by decide)).2 rfl

/-- C3 amended: the user-scoped Cursor Subscription hook filter invokes
`onNewReadCursor` exactly for events whose cursor type is 0 and whose
roomId is one of the locally cached rooms' ids (`isMemberOf`); unlike the
room-scoped filter it performs no self-echo (userId) filtering. -/
theorem userScopedNewCursorInvokes_iff (hasHook : Bool)
    (cachedRoomIds : List Int) (c : CursorEvent) :
    userScopedNewCursorInvokes hasHook cachedRoomIds c = true ↔
      hasHook = true ∧ c.type = 0 ∧ c.roomId ∈ cachedRoomIds := by
  simp [userScopedNewCursorInvokes, isMemberOf, and_assoc]

/-- C4: the room-scoped filter never invokes the hook for an event carrying
the local user's id, and invokes it exactly once for a type-0 event
carrying a different id when the hook is supplied. -/
theorem subscribeToRoom_self_echo_filtering (localId : String)
    (hasHook : Bool) (c : CursorEvent) :
    (c.userId = localId → roomScopedHookCalls localId hasHook c = 0) ∧
    (c.type = 0 → c.userId ≠ localId →
      roomScopedHookCalls localId true c = 1) := by
  constructor
  · intro h
    simp [roomScopedHookCalls, roomScopedNewCursorInvokes, h]
  · intro ht hn
    simp [roomScopedHookCalls, roomScopedNewCursorInvokes, ht, hn]

/-- Witness for C4 at concrete events: a self event is dropped, another
member's event fires once. -/
theorem subscribeToRoom_self_echo_filtering_witness :
    roomScopedHookCalls "me" true ⟨0, "me", 1⟩ = 0 ∧
    roomScopedHookCalls "me" true ⟨0, "you", 1⟩ = 1 := by
  exact ⟨(subscribeToRoom_self_echo_filtering "me" true ⟨0, "me", 1⟩).1 rfl,
    (subscribeToRoom_self_echo_filtering "me" true ⟨0, "you", 1⟩).2 rfl
      (by decide)⟩

/-- Result of a `readCursor` call: a synchronously raised error, or the
synchronous cursor-store lookup. -/
inductive ReadCursorResult where
  | thrown (msg : String)
  | ok (c : Option Cursor)

/-- Embedding of src/current-user.js `readCursor` (lines 107-118): after
the type checks (enforced here by the binder types), a TypeError is thrown
when `userId !== this.id && !has(roomId, this.roomSubscriptions)`;
otherwise the call returns `cursorStore.getSync(userId, roomId)` (no
network I/O on either path). -/
def readCursor (localId : String) (roomSubscriptions : List Int)
    (cs : CursorStoreState) (roomId : Int) (userId : String) :
    ReadCursorResult :=
  if userId ≠ localId ∧ roomId ∉ roomSubscriptions then
    .thrown ("Must be subscribed to room " ++ toString roomId ++
      " to access member\x27s read cursors")
  else .ok (Option.join (cs.store ( key userId roomId)))

/-- C6: a call with a foreign userId and an unsubscribed roomId throws the
descriptive error synchronously (no I/O is modelled on that path); every
other call returns the synchronous cursor-store lookup without throwing. -/
theorem readCursor_state_error (localId : String) (subs : List Int)
    (cs : CursorStoreState) (roomId : Int) (userId : String) :
    (userId ≠ localId → roomId ∉ subs →
      readCursor localId subs cs roomId userId =
        .thrown ("Must be subscribed to room " ++ toString roomId ++
          " to access member\x27s read cursors")) ∧
    (userId = localId ∨ roomId ∈ subs →
      readCursor localId subs cs roomId userId =
        .ok (Option.join (cs.store ( key userId roomId)))) := by
  constructor
  · intro h1 h2
    unfold readCursor
    rw [if_pos ⟨h1, h2⟩]
  · intro h
    have hc : ¬(userId ≠ localId ∧ roomId ∉ subs) := by
      rcases h with h | h
      · exact fun hh => hh.1 h
      · exact fun hh => hh.2 h
    unfold readCursor
    rw [if_neg hc]

/-- Witness for C6: with no room subscriptions, reading a stranger's cursor
throws and reading one's own succeeds. -/
theorem readCursor_state_error_witness :
    readCursor "me" [] emptyCursorState 9 "you" =
      .thrown ("Must be subscribed to room " ++ toString (9 : Int) ++
        " to access member\x27s read cursors") ∧
    readCursor "me" [] emptyCursorState 9 "me" =
      .ok (Option.join (emptyCursorState.store ( key "me" 9))) := by
  exact ⟨(readCursor_state_error "me" [] emptyCursorState 9 "you").1
      (by decide) (by decide),
    (readCursor_state_error "me" [] emptyCursorState 9 "me").2 (Or.inl rfl)⟩

/-- Basic room record as consumed by `initializeUserStore`: only the
member user-id list (`prop('userIds')`) is read. -/
structure RoomRec where
  id : Int
  userIds : List String
deriving DecidableEq

/-- Ramda `uniq`: removes duplicates keeping the first occurrence. -/
def ramdaUniq (l : List String) : List String :=
  l.foldl (fun acc x => if x ∈ acc then acc else acc ++ [x]) []

/-- Observable steps of an `initializeUserStore` run, in execution order. -/
inductive UserStoreStep where
  | fetchMissingUsers (ids : List String)
  | logWarnFetchError
  | initializeEmptyMerge
deriving DecidableEq

/-- Embedding of src/current-user.js `initializeUserStore` (lines 474-482):
`fetchMissingUsers(uniq(chain(prop('userIds'), this.rooms)))`, a `.catch`
that logs and swallows any failure, then
`.then(() => this.userStore.initialize({}))`.  `fetchOk` is whether the
best-effort fetch succeeds; the result is the ordered step trace plus
whether the overall operation resolves (the store operations themselves
never fail, spec §4.1). -/
def initializeUserStore (rooms : List RoomRec) (fetchOk : Bool) :
    List UserStoreStep × Bool :=
  ([UserStoreStep.fetchMissingUsers
      (ramdaUniq (rooms.flatMap RoomRec.userIds))] ++
    (if fetchOk then [] else [UserStoreStep.logWarnFetchError]) ++
    [UserStoreStep.initializeEmptyMerge],
   true)

/-- C7: `initializeUserStore` resolves successfully whether or not the
missing-user fetch fails; the trace starts with the fetch over the deduped
user ids of all cached rooms, ends with the User Store's empty
initialization merge (so the merge runs only after the fetch attempt has
settled), and a failed fetch is logged and swallowed. -/
theorem initializeUserStore_swallows_fetch_error (rooms : List RoomRec)
    (fetchOk : Bool) :
    (initializeUserStore rooms fetchOk).2 = true ∧
    (initializeUserStore rooms fetchOk).1.head? =
      some (.fetchMissingUsers (ramdaUniq (rooms.flatMap RoomRec.userIds))) ∧
    (initializeUserStore rooms fetchOk).1.getLast? =
      some .initializeEmptyMerge ∧
    (fetchOk = false →
      UserStoreStep.logWarnFetchError ∈ (initializeUserStore rooms fetchOk).1) := by
  refine ⟨rfl, rfl, ?_, ?_⟩
  · cases fetchOk <;> rfl
  · intro h
    subst h
    simp [initializeUserStore]

/-- Witness for C7 with one room and a failing fetch. -/
theorem initializeUserStore_swallows_fetch_error_witness :
    (initializeUserStore [⟨1, ["a", "b"]⟩] false).2 = true ∧
    UserStoreStep.logWarnFetchError ∈
      (initializeUserStore [⟨1, ["a", "b"]⟩] false).1 := by
  exact ⟨(initializeUserStore_swallows_fetch_error [⟨1, ["a", "b"]⟩] false).1,
    (initializeUserStore_swallows_fetch_error [⟨1, ["a", "b"]⟩] false).2.2.2
      rfl⟩

/-- TypeError values raised or rejected by validation. -/
inductive JsErr where
  | typeError (msg : String)
deriving DecidableEq

/-- Message text of the TypeError that `typeCheck(name, expected, value)`
raises.  Modelled from the spec: utils.js is not under src/; §7(a) has
malformed arguments raised synchronously as validation errors. -/
def typeCheckErr (pname expected : String) : JsErr :=
  .typeError (pname ++ " must be of type " ++ expected)

/-- Modelled from the spec: utils.js `typeCheck` raises a TypeError unless
`typeof value` is the expected type tag. -/
def typeCheck (pname expected : String) (v : JsValue) : Except JsErr Unit :=
  if v.typeOf = expected then .ok ()
  else .error (typeCheckErr pname expected)

/-- JavaScript attachment argument: the four properties the validators
read; an absent property reads as `undef`. -/
structure Attachment where
  file : JsValue
  name : JsValue
  link : JsValue
  type : JsValue
deriving DecidableEq

/-- Embedding of src/current-user.js `isDataAttachment` (lines 485-492):
false when `file` or `name` is undefined; otherwise
`typeCheck('attachment.file', 'object', file)` then
`typeCheck('attachment.name', 'string', name)` (their TypeErrors
propagate, inlined here as the error branches), then true. -/
def isDataAttachment (a : Attachment) : Except JsErr Bool :=
  if a.file = .undef ∨ a.name = .undef then .ok false
  else if a.file.typeOf = "object" then
    if a.name.typeOf = "string" then .ok true
    else .error (typeCheckErr "attachment.name" "string")
  else .error (typeCheckErr "attachment.file" "object")

/-- Embedding of src/current-user.js `isLinkAttachment` (lines 494-501),
analogous to `isDataAttachment` over `link` and `type`. -/
def isLinkAttachment (a : Attachment) : Except JsErr Bool :=
  if a.link = .undef ∨ a.type = .undef then .ok false
  else if a.link.typeOf = "string" then
    if a.type.typeOf = "string" then .ok true
    else .error (typeCheckErr "attachment.type" "string")
  else .error (typeCheckErr "attachment.link" "string")

/-- Attachment payload the message request would carry. -/
inductive AttachmentPayload where
  | uploadedData
  | resourceLink (link type : JsValue)
deriving DecidableEq

/-- Outcome of src/current-user.js `sendMessage`'s attachment stage (lines
241-256): either the message POST is issued (with an optional attachment
payload), or the promise rejects before any message request. -/
inductive SendMessageOutcome where
  | requestIssued (attachment : Option AttachmentPayload)
  | rejected (e : JsErr)
deriving DecidableEq

/-- Embedding of the attachment dispatch inside `sendMessage` (lines
241-256): a defined attachment is tried as a data attachment, then as a
link attachment, and otherwise rejected with
`new TypeError('attachment was malformed')`; a validator throw rejects the
promise; only the resolve paths reach the message POST. -/
def sendMessageAttachmentStage (attachment : Option Attachment) :
    SendMessageOutcome :=
  match attachment with
  | none => .requestIssued none
  | some a =>
    match isDataAttachment a with
    | .error e => .rejected e
    | .ok true => .requestIssued (some .uploadedData)
    | .ok false =>
      match isLinkAttachment a with
      | .error e => .rejected e
      | .ok true => .requestIssued (some (.resourceLink a.link a.type))
      | .ok false => .rejected (.typeError "attachment was malformed")

/-- Well-formed data attachment in the sense of the claim: `file` and
`name` present and of the checked types. -/
def dataAttachmentWellFormed (a : Attachment) : Prop :=
  a.file ≠ .undef ∧ a.name ≠ .undef ∧
  a.file.typeOf = "object" ∧ a.name.typeOf = "string"

/-- Well-formed link attachment in the sense of the claim: `link` and
`type` present and of the checked types. -/
def linkAttachmentWellFormed (a : Attachment) : Prop :=
  a.link ≠ .undef ∧ a.type ≠ .undef ∧
  a.link.typeOf = "string" ∧ a.type.typeOf = "string"

/-- The data validator accepts exactly the well-formed data attachments. -/
theorem isDataAttachment_ok_true_iff (a : Attachment) :
    isDataAttachment a = .ok true ↔ dataAttachmentWellFormed a := by
  unfold isDataAttachment dataAttachmentWellFormed
  by_cases h1 : a.file = .undef ∨ a.name = .undef
  · rw [if_pos h1]
    simp only [Except.ok.injEq, Bool.false_eq_true, false_iff]
    intro h
    rcases h1 with h1 | h1
    · exact h.1 h1
    · exact h.2.1 h1
  · rw [if_neg h1]
    push_neg at h1
    by_cases h2 : a.file.typeOf = "object"
    · rw [if_pos h2]
      by_cases h3 : a.name.typeOf = "string"
      · rw [if_pos h3]
        simp [h1.1, h1.2, h2, h3]
      · rw [if_neg h3]
        simp [h3]
    · rw [if_neg h2]
      simp [h2]

/-- The link validator accepts exactly the well-formed link attachments. -/
theorem isLinkAttachment_ok_true_iff (a : Attachment) :
    isLinkAttachment a = .ok true ↔ linkAttachmentWellFormed a := by
  unfold isLinkAttachment linkAttachmentWellFormed
  by_cases h1 : a.link = .undef ∨ a.type = .undef
  · rw [if_pos h1]
    simp only [Except.ok.injEq, Bool.false_eq_true, false_iff]
    intro h
    rcases h1 with h1 | h1
    · exact h.1 h1
    · exact h.2.1 h1
  · rw [if_neg h1]
    push_neg at h1
    by_cases h2 : a.link.typeOf = "string"
    · rw [if_pos h2]
      by_cases h3 : a.type.typeOf = "string"
      · rw [if_pos h3]
        simp [h1.1, h1.2, h2, h3]
      · rw [if_neg h3]
        simp [h3]
    · rw [if_neg h2]
      simp [h2]

/-- C8: a defined attachment that is neither a well-formed data attachment
nor a well-formed link attachment makes `sendMessage` reject with a
TypeError at the attachment stage; the message POST is never reached. -/
theorem sendMessage_malformed_attachment_rejected (a : Attachment)
    (hd : ¬ dataAttachmentWellFormed a)
    (hl : ¬ linkAttachmentWellFormed a) :
    ∃ e, sendMessageAttachmentStage (some a) = .rejected e := by
  have hda : isDataAttachment a ≠ .ok true :=
    fun h => hd ((isDataAttachment_ok_true_iff a).mp h)
  have hla : isLinkAttachment a ≠ .ok true :=
    fun h => hl ((isLinkAttachment_ok_true_iff a).mp h)
  cases h1 : isDataAttachment a with
  | error e => exact ⟨e, by simp [sendMessageAttachmentStage, h1]⟩
  | ok b =>
    cases b with
    | true => exact absurd h1 hda
    | false =>
      cases h2 : isLinkAttachment a with
      | error e => exact ⟨e, by simp [sendMessageAttachmentStage, h1, h2]⟩
      | ok b2 =>
        cases b2 with
        | true => exact absurd h2 hla
        | false =>
          exact ⟨.typeError "attachment was malformed",
            by simp [sendMessageAttachmentStage, h1, h2]⟩

/-- Witness for C8: the empty attachment object (defined, all properties
absent) is rejected. -/
theorem sendMessage_malformed_attachment_rejected_witness :
    ∃ e, sendMessageAttachmentStage
        (some ⟨.undef, .undef, .undef, .undef⟩) = .rejected e := by
  exact sendMessage_malformed_attachment_rejected
    ⟨.undef, .undef, .undef, .undef⟩
    (by simp [dataAttachmentWellFormed])
    (by simp [linkAttachmentWellFormed])

end Chatkit
